import Mathlib

/-!
Shallow embedding of the SQL safety core of the `ai-connect` repository
(`src/core/sql-validator.ts` and `src/core/ask-database.ts`).

Strings are modelled by Lean `String` (a structure around `List Char`).
The JavaScript string operations used by the source (`trim`,
`toUpperCase`, `startsWith`, `includes`, `indexOf`, `endsWith`,
`slice(0, -1)`, template interpolation) are given explicit executable
definitions below, faithful on the ASCII fragment that SQL queries and
the validator's patterns live in.
-/

/-- The whitespace characters removed by JavaScript `String.prototype.trim`
(ASCII fragment). -/
def jsIsWS (c : Char) : Bool :=
  c = ' ' || c = '\t' || c = '\n' || c = '\r' || c = '\x0b' || c = '\x0c'

/-- Remove leading whitespace. -/
def jsTrimLeftList (l : List Char) : List Char := l.dropWhile jsIsWS

/-- Remove trailing whitespace. -/
def jsTrimRightList (l : List Char) : List Char := (l.reverse.dropWhile jsIsWS).reverse

/-- `s.trim()` on the character list. -/
def jsTrimList (l : List Char) : List Char := jsTrimRightList (jsTrimLeftList l)

/-- JavaScript `s.trim()`. -/
def jsTrim (s : String) : String := ⟨jsTrimList s.data⟩

/-- `s.toUpperCase()` on the character list (ASCII case mapping). -/
def jsToUpperList (l : List Char) : List Char := l.map Char.toUpper

/-- JavaScript `s.toUpperCase()`. -/
def jsToUpper (s : String) : String := ⟨jsToUpperList s.data⟩

/-- Boolean "the first list starts the second" test. -/
def isPrefixB : List Char → List Char → Bool
  | [], _ => true
  | _ :: _, [] => false
  | a :: as, b :: bs => a = b && isPrefixB as bs

/-- Boolean substring test: `pat` occurs contiguously in the second list. -/
def containsSub (pat : List Char) : List Char → Bool
  | [] => isPrefixB pat []
  | c :: cs => isPrefixB pat (c :: cs) || containsSub pat cs

/-- JavaScript `s.startsWith(pat)`. -/
def jsStartsWith (s pat : String) : Bool := isPrefixB pat.data s.data

/-- JavaScript `s.includes(pat)`. -/
def jsIncludes (s pat : String) : Bool := containsSub pat.data s.data

/-- JavaScript `s.endsWith(pat)`. -/
def jsEndsWith (s pat : String) : Bool := isPrefixB pat.data.reverse s.data.reverse

/-- JavaScript `s.indexOf(';')`: index of the first semicolon,
`none` standing for `-1`. -/
def indexOfSemi : List Char → Option Nat
  | [] => none
  | c :: cs => if c = ';' then some 0 else (indexOfSemi cs).map (· + 1)

/-- A JavaScript regex word character (`\w` = `[A-Za-z0-9_]`). -/
def isWordChar (c : Char) : Bool :=
  ('A' ≤ c && c ≤ 'Z') || ('a' ≤ c && c ≤ 'z') || ('0' ≤ c && c ≤ '9') || c = '_'

/-- Case-insensitive character comparison, as under the regex `i` flag
(ASCII case folding). -/
def charMatchCI (a b : Char) : Bool := a.toUpper = b.toUpper

/-- The keyword matches, case-insensitively, at the head of `s`. -/
def matchesCIAt : List Char → List Char → Bool
  | [], _ => true
  | _ :: _, [] => false
  | k :: ks, c :: cs => charMatchCI k c && matchesCIAt ks cs

/-- The `\b` after the keyword: the character following the match (if any)
is not a word character. -/
def afterBoundary (kw s : List Char) : Bool :=
  match s.drop kw.length with
  | [] => true
  | c :: _ => !isWordChar c

/-- A whole-word, case-insensitive occurrence of `kw` starts at the head of `s`. -/
def wholeWordAt (kw s : List Char) : Bool := matchesCIAt kw s && afterBoundary kw s

/-- Scan `s` for a whole-word occurrence of `kw`; the Boolean argument says
whether the `\b` before the current position holds (the previous character,
if any, is not a word character). -/
def hasWholeWordFrom (kw : List Char) : List Char → Bool → Bool
  | [], _ => false
  | c :: cs, beforeOk =>
      (beforeOk && wholeWordAt kw (c :: cs)) || hasWholeWordFrom kw cs (!isWordChar c)

/-- `new RegExp("\\b" + kw + "\\b", "i").test(s)` for an alphabetic keyword `kw`. -/
def hasWholeWordCI (kw s : List Char) : Bool := hasWholeWordFrom kw s true

/-- `/pat/i.test(s)` for the literal (escaped-dot) sensitive patterns:
a case-insensitive substring test. -/
def regexTestCI (pat s : String) : Bool :=
  containsSub (jsToUpperList pat.data) (jsToUpperList s.data)

/-- `SqlValidationResult` from `src/core/sql-validator.ts`. -/
structure SqlValidationResult where
  valid : Bool
  error : Option String
deriving DecidableEq

/-- `BLOCKED_KEYWORDS` from `src/core/sql-validator.ts`. -/
def BLOCKED_KEYWORDS : List String :=
  ["INSERT", "UPDATE", "DELETE", "DROP", "ALTER", "TRUNCATE",
   "CREATE", "GRANT", "REVOKE", "EXECUTE", "CALL", "VACUUM",
   "REINDEX", "CLUSTER", "COMMENT", "LOCK", "UNLISTEN", "NOTIFY"]

/-- `SENSITIVE_PATTERNS` from `src/core/sql-validator.ts`: each regex is a
literal string matched case-insensitively. -/
def SENSITIVE_PATTERNS : List String :=
  ["password", "stripe_customer", "api_key", "secret",
   "auth.users", "pg_catalog", "information_schema"]

/-- The multiple-statement check of `validateSql`:
`sql.indexOf(';') !== -1 && sql.indexOf(';') < sql.trim().length - 1`
(the comparison is over JavaScript numbers, hence over `Int`). -/
def multiStatementViolation (sql : String) : Bool :=
  match indexOfSemi sql.data with
  | none => false
  | some i => decide ((i : Int) < ((jsTrimList sql.data).length : Int) - 1)

/-- `validateSql` from `src/core/sql-validator.ts`.  The checks run in
source order: empty input, statement type, blocked keywords (tested on the
original string), sensitive patterns, multiple statements, comments. -/
def validateSql (sql : String) : SqlValidationResult :=
  if sql = "" then ⟨false, some "SQL query is required"⟩
  else if !jsStartsWith (jsToUpper (jsTrim sql)) "SELECT"
          && !jsStartsWith (jsToUpper (jsTrim sql)) "WITH" then
    ⟨false, some "Query must be a SELECT statement"⟩
  else
    match BLOCKED_KEYWORDS.find? (fun kw => hasWholeWordCI kw.data sql.data) with
    | some keyword => ⟨false, some ("Query contains blocked keyword: " ++ keyword)⟩
    | none =>
      if SENSITIVE_PATTERNS.any (fun pat => regexTestCI pat sql) then
        ⟨false, some "Query attempts to access sensitive data"⟩
      else if multiStatementViolation sql then
        ⟨false, some "Multiple statements not allowed"⟩
      else if jsIncludes sql "--" || jsIncludes sql "/*" then
        ⟨false, some "SQL comments not allowed"⟩
      else ⟨true, none⟩

/-- `addSafetyLimits` from `src/core/sql-validator.ts`.  The optional
`maxRows` parameter defaults to `1000` (`maxRows: number = 1000`); an
omitted argument is modelled by `none`. -/
def addSafetyLimits (sql : String) (maxRows? : Option Nat) : String :=
  let maxRows := maxRows?.getD 1000
  let upperSql := jsToUpper sql
  if jsIncludes upperSql " LIMIT " || jsIncludes upperSql "COUNT(" then sql
  else
    let cleanSql := jsTrim sql
    let cleanSql2 := if jsEndsWith cleanSql ";" then (⟨cleanSql.data.dropLast⟩ : String) else cleanSql
    cleanSql2 ++ " LIMIT " ++ toString maxRows

/-- Token usage of one model call (`{ inputTokens, outputTokens }`). -/
structure AIUsage where
  inputTokens : Nat
  outputTokens : Nat
deriving DecidableEq

/-- A JavaScript scalar value, as it appears in a result row; `jsDisplay`
renders it the way template interpolation does. -/
inductive JsValue where
  | num (n : Int)
  | str (s : String)
  | boolean (b : Bool)
  | null
deriving DecidableEq

/-- Template-literal rendering of a scalar (`` `Result: ${value}` ``). -/
def jsDisplay : JsValue → String
  | .num n => toString n
  | .str s => s
  | .boolean b => if b then "true" else "false"
  | .null => "null"

/-- A result row: a JavaScript object, modelled as its ordered key/value list
(`Object.keys` / `Object.values` order). -/
abbrev Row := List (String × JsValue)

/-- The value returned by `generateSql` (stage 1 of `askDatabase`). -/
structure GenerateSqlResult where
  sql : String
  explanation : String
  usage : Option AIUsage

/-- The value returned by `formatQueryResults` (stage 5 of `askDatabase`). -/
structure FormatQueryResult where
  answer : String
  usage : Option AIUsage

/-- The `usage` field of `AskDatabaseResult`. -/
structure UsageInfo where
  sqlGeneration : AIUsage
  formatting : Option AIUsage
  total : AIUsage
deriving DecidableEq

/-- `AskDatabaseResult` from `src/core/ask-database.ts`.  The wall-clock
`executionTimeMs` field is outside the embedding (real time). -/
structure AskDatabaseResult where
  sql : String
  explanation : String
  answer : String
  rawData : List Row
  usage : Option UsageInfo
deriving DecidableEq

/-- The deterministic fallback formatter of `askDatabase` (the
`else` branch used when `formatResults` is `false`). -/
def defaultAnswer : List Row → String
  | [] => "No results found."
  | [[(_, v)]] => "Result: " ++ jsDisplay v
  | rows => "Found " ++ toString rows.length ++ " result(s)."

/-- The inner `executeAskDatabase` pipeline of `askDatabase`
(`src/core/ask-database.ts`, stages 2-6): validate, add limits, execute,
format, assemble the result.  The outcome of stage 1 (`generateSql`) is the
`sqlResult` argument; the caller-supplied `executeQuery` callback and the
`formatQueryResults` model call are passed as functions, a thrown error
modelled by `Except.error` with the error's message. -/
def executeAskDatabase
    (sqlResult : GenerateSqlResult)
    (executeQuery : String → Except String (List Row))
    (formatQueryResults : List Row → FormatQueryResult)
    (maxRows : Nat) (shouldFormat : Bool) : Except String AskDatabaseResult :=
  let validation := validateSql sqlResult.sql
  if !validation.valid then
    .error ("Generated SQL is invalid: " ++ validation.error.getD "undefined")
  else
    let safeSql := addSafetyLimits sqlResult.sql (some maxRows)
    match executeQuery safeSql with
    | .error msg => .error ("SQL execution failed: " ++ msg)
    | .ok rawData =>
      let fmt : String × Option AIUsage :=
        if shouldFormat then
          let formatResult := formatQueryResults rawData
          (formatResult.answer, formatResult.usage)
        else
          (defaultAnswer rawData, none)
      let sqlUsage := sqlResult.usage.getD ⟨0, 0⟩
      let fmtUsage := fmt.2.getD ⟨0, 0⟩
      .ok {
        sql := safeSql
        explanation := sqlResult.explanation
        answer := fmt.1
        rawData := rawData
        usage := some {
          sqlGeneration := sqlUsage
          formatting := if shouldFormat then some fmtUsage else none
          total := ⟨sqlUsage.inputTokens + fmtUsage.inputTokens,
                    sqlUsage.outputTokens + fmtUsage.outputTokens⟩ } }

/-- `askDatabase` from `src/core/ask-database.ts`.  The pipeline is raced
against a timer via `Promise.race`; which of the two settles first is
nondeterministic real-time behaviour, modelled by the oracle
`timerFiresFirst`.  The optional `timeout`, `maxRows` and `formatResults`
options default to `30000`, `1000` and `true` (the destructuring defaults of
the source); an omitted option is modelled by `none`.  The outcome of the
`generateSql` model call is the `generateSqlOutcome` argument (a rejection
is rethrown unchanged). -/
def askDatabase
    (timerFiresFirst : Bool)
    (timeout? : Option Nat)
    (generateSqlOutcome : Except String GenerateSqlResult)
    (executeQuery : String → Except String (List Row))
    (formatQueryResults : List Row → FormatQueryResult)
    (maxRows? : Option Nat)
    (formatResults? : Option Bool) : Except String AskDatabaseResult :=
  let timeout := timeout?.getD 30000
  let maxRows := maxRows?.getD 1000
  let shouldFormat := formatResults?.getD true
  if timerFiresFirst then
    .error ("Query timed out after " ++ toString timeout ++ "ms")
  else
    match generateSqlOutcome with
    | .error e => .error e
    | .ok sqlResult =>
        executeAskDatabase sqlResult executeQuery formatQueryResults maxRows shouldFormat


/-! ### Helper lemmas -/

theorem wsTail_spec (l : List Char) :
    ∃ r, l = jsTrimRightList l ++ r ∧ ∀ c ∈ r, jsIsWS c = true := by
  refine ⟨(l.reverse.takeWhile jsIsWS).reverse, ?_, ?_⟩
  · have h := List.takeWhile_append_dropWhile jsIsWS l.reverse
    have h2 := congrArg List.reverse h
    rw [List.reverse_append, List.reverse_reverse] at h2
    exact h2.symm
  · intro c hc
    rw [List.mem_reverse] at hc
    exact List.mem_takeWhile_imp hc

theorem indexOfSemi_of_getElem :
    ∀ (l : List Char) (i : Nat), l[i]? = some ';' → ∃ j, j ≤ i ∧ indexOfSemi l = some j := by
  intro l
  induction l with
  | nil => intro i h; simp at h
  | cons c cs ih =>
    intro i h
    by_cases hc : c = ';'
    · exact ⟨0, Nat.zero_le i, by simp [indexOfSemi, hc]⟩
    · cases i with
      | zero =>
        simp only [List.getElem?_cons_zero, Option.some.injEq] at h
        exact absurd h hc
      | succ i' =>
        simp only [List.getElem?_cons_succ] at h
        obtain ⟨j, hji, hfind⟩ := ih i' h
        exact ⟨j + 1, Nat.succ_le_succ hji, by simp [indexOfSemi, hc, hfind]⟩

theorem indexOfSemi_getElem :
    ∀ (l : List Char) (j : Nat), indexOfSemi l = some j → l[j]? = some ';' := by
  intro l
  induction l with
  | nil => intro j h; simp [indexOfSemi] at h
  | cons c cs ih =>
    intro j h
    have heq : indexOfSemi (c :: cs)
        = if c = ';' then some 0 else (indexOfSemi cs).map (· + 1) := rfl
    by_cases hc : c = ';'
    · rw [heq, if_pos hc, Option.some.injEq] at h
      subst h
      simp [hc]
    · rw [heq, if_neg hc, Option.map_eq_some'] at h
      obtain ⟨j', hj', hj1⟩ := h
      subst hj1
      simpa using ih j' hj'

theorem validateSql_passes_front (sql : String)
    (hne : sql ≠ "")
    (hsel : (jsStartsWith (jsToUpper (jsTrim sql)) "SELECT"
             || jsStartsWith (jsToUpper (jsTrim sql)) "WITH") = true)
    (hkw : BLOCKED_KEYWORDS.find? (fun kw => hasWholeWordCI kw.data sql.data) = none)
    (hsens : SENSITIVE_PATTERNS.any (fun pat => regexTestCI pat sql) = false) :
    validateSql sql =
      (if multiStatementViolation sql then ⟨false, some "Multiple statements not allowed"⟩
       else if jsIncludes sql "--" || jsIncludes sql "/*" then
         ⟨false, some "SQL comments not allowed"⟩
       else ⟨true, none⟩) := by
  have h1 : (!jsStartsWith (jsToUpper (jsTrim sql)) "SELECT"
             && !jsStartsWith (jsToUpper (jsTrim sql)) "WITH") = false := by
    cases hS : jsStartsWith (jsToUpper (jsTrim sql)) "SELECT" <;>
      cases hW : jsStartsWith (jsToUpper (jsTrim sql)) "WITH" <;> simp_all
  unfold validateSql
  rw [if_neg hne]
  simp only [h1, Bool.false_eq_true, if_false, hkw, hsens]

theorem jsTrimList_of_no_lead (sql : String)
    (hlead : sql.data.dropWhile jsIsWS = sql.data) :
    jsTrimList sql.data = jsTrimRightList sql.data := by
  unfold jsTrimList jsTrimLeftList
  rw [hlead]

theorem not_and_not_eq_false {a b : Bool} (h : (a || b) = true) : (!a && !b) = false := by
  cases a <;> cases b <;> simp_all

/-! ### Claim C1 -/

/-- C1 counterexample: `"  SELECT a; b"` contains a semicolon that is not the
final non-whitespace character (it sits at index 8 of the trimmed content,
which is 11 characters long), yet `validateSql` accepts it: the first
semicolon's index in the untrimmed string (10) is compared against
`sql.trim().length - 1` (10).  Moreover for `"DROP; SELECT 1"` the semicolon
is non-final but the reported error is the statement-type one, not
"Multiple statements not allowed". -/
theorem validateSql_semicolon_counterexample :
    (validateSql "  SELECT a; b" = ⟨true, none⟩
      ∧ (jsTrimList "  SELECT a; b".data)[8]? = some ';'
      ∧ 8 + 1 < (jsTrimList "  SELECT a; b".data).length)
    ∧ validateSql "DROP; SELECT 1" = ⟨false, some "Query must be a SELECT statement"⟩ :=
  ⟨⟨by decide, by decide, by decide⟩, by decide⟩

/-- C1 (amended): for a query with no leading whitespace that passes the
earlier checks (nonempty; trimmed-uppercased form starts with `SELECT` or
`WITH`; no blocked keyword; no sensitive pattern), a semicolon that is not
the final non-whitespace character makes `validateSql` return invalid with
error "Multiple statements not allowed"; and when every semicolon of the
trimmed content is its final character, the multiple-statement check
passes. -/
theorem validateSql_multiStatement_amended (sql : String)
    (hlead : sql.data.dropWhile jsIsWS = sql.data)
    (hne : sql ≠ "")
    (hsel : (jsStartsWith (jsToUpper (jsTrim sql)) "SELECT"
             || jsStartsWith (jsToUpper (jsTrim sql)) "WITH") = true)
    (hkw : BLOCKED_KEYWORDS.find? (fun kw => hasWholeWordCI kw.data sql.data) = none)
    (hsens : SENSITIVE_PATTERNS.any (fun pat => regexTestCI pat sql) = false) :
    ((∃ i, i + 1 < (jsTrimList sql.data).length ∧ (jsTrimList sql.data)[i]? = some ';') →
      validateSql sql = ⟨false, some "Multiple statements not allowed"⟩)
    ∧ ((∀ i, (jsTrimList sql.data)[i]? = some ';' → i + 1 = (jsTrimList sql.data).length) →
      multiStatementViolation sql = false) := by
  have htr := jsTrimList_of_no_lead sql hlead
  obtain ⟨r, hdecomp, hws⟩ := wsTail_spec sql.data
  constructor
  · rintro ⟨i, hi, hget⟩
    rw [htr] at hi hget
    have hil : i < (jsTrimRightList sql.data).length := by omega
    have hl : sql.data[i]? = some ';' := by
      conv_lhs => rw [hdecomp]
      rw [List.getElem?_append_left hil]
      exact hget
    obtain ⟨j, hji, hfind⟩ := indexOfSemi_of_getElem sql.data i hl
    have hmv : multiStatementViolation sql = true := by
      unfold multiStatementViolation
      rw [hfind, htr]
      simp only [decide_eq_true_eq]
      have hj1 : j + 1 < (jsTrimRightList sql.data).length := by omega
      have : ((j : Int)) + 1 < ((jsTrimRightList sql.data).length : Int) := by
        exact_mod_cast hj1
      omega
    rw [validateSql_passes_front sql hne hsel hkw hsens, hmv]
    simp
  · intro hall
    unfold multiStatementViolation
    cases hfind : indexOfSemi sql.data with
    | none => rfl
    | some j =>
      have hj : sql.data[j]? = some ';' := indexOfSemi_getElem _ _ hfind
      have hjt : j < (jsTrimRightList sql.data).length := by
        by_contra hge
        rw [hdecomp, List.getElem?_append, if_neg hge] at hj
        obtain ⟨hlt, hg⟩ := List.getElem?_eq_some.mp hj
        have hmem : (';' : Char) ∈ r := by
          have := List.getElem_mem (l := r) (n := j - (jsTrimRightList sql.data).length) hlt
          rwa [hg] at this
        have := hws ';' hmem
        simp [jsIsWS] at this
      have hgt : (jsTrimRightList sql.data)[j]? = some ';' := by
        rw [hdecomp, List.getElem?_append_left hjt] at hj
        exact hj
      have hje : j + 1 = (jsTrimRightList sql.data).length := by
        have := hall j (by rw [htr]; exact hgt)
        rw [htr] at this
        exact this
      rw [htr]
      simp only [decide_eq_false_iff_not]
      intro habs
      have : (j : Int) + 1 = ((jsTrimRightList sql.data).length : Int) := by
        exact_mod_cast hje
      omega

/-- C1 witness: the amended theorem applied at `"SELECT 1; 2"`. -/
theorem validateSql_multiStatement_amended_witness :
    validateSql "SELECT 1; 2" = ⟨false, some "Multiple statements not allowed"⟩ :=
  (validateSql_multiStatement_amended "SELECT 1; 2" (by decide) (by decide) (by decide)
      (by decide) (by decide)).1 ⟨8, by decide, by decide⟩

/-! ### Claim C2 -/

/-- C2 counterexample: `"DROP TABLE users"` contains the blocked keyword
`DROP` as a whole word, but `validateSql` reports the statement-type error
(which fires earlier), and that error message does not name the keyword. -/
theorem validateSql_keyword_order_counterexample :
    validateSql "DROP TABLE users" = ⟨false, some "Query must be a SELECT statement"⟩
    ∧ hasWholeWordCI "DROP".data "DROP TABLE users".data = true
    ∧ jsIncludes "Query must be a SELECT statement" "DROP" = false :=
  ⟨by decide, by decide, by decide⟩

/-- C2 (amended): for every SQL string that passes the earlier checks
(nonempty and trimmed-uppercased form starting with `SELECT` or `WITH`) and
contains some blocked keyword as a whole word case-insensitively,
`validateSql` returns invalid and names a matching blocked keyword in the
error message. -/
theorem validateSql_blocked_keyword_amended (sql : String)
    (hne : sql ≠ "")
    (hsel : (jsStartsWith (jsToUpper (jsTrim sql)) "SELECT"
             || jsStartsWith (jsToUpper (jsTrim sql)) "WITH") = true)
    (hkw : ∃ kw ∈ BLOCKED_KEYWORDS, hasWholeWordCI kw.data sql.data = true) :
    ∃ kw ∈ BLOCKED_KEYWORDS, hasWholeWordCI kw.data sql.data = true ∧
      validateSql sql = ⟨false, some ("Query contains blocked keyword: " ++ kw)⟩ := by
  cases hfind : BLOCKED_KEYWORDS.find? (fun kw => hasWholeWordCI kw.data sql.data) with
  | none =>
    rw [List.find?_eq_none] at hfind
    obtain ⟨kw, hmem, hww⟩ := hkw
    exact absurd hww (by simpa using hfind kw hmem)
  | some kw =>
    refine ⟨kw, List.mem_of_find?_eq_some hfind, by simpa using List.find?_some hfind, ?_⟩
    unfold validateSql
    rw [if_neg hne]
    simp only [not_and_not_eq_false hsel, Bool.false_eq_true, if_false, hfind]

/-- C2 witness: the amended theorem applied at `"SELECT DELETE"`. -/
theorem validateSql_blocked_keyword_amended_witness :
    ∃ kw ∈ BLOCKED_KEYWORDS, hasWholeWordCI kw.data "SELECT DELETE".data = true ∧
      validateSql "SELECT DELETE" = ⟨false, some ("Query contains blocked keyword: " ++ kw)⟩ :=
  validateSql_blocked_keyword_amended "SELECT DELETE" (by decide) (by decide)
    ⟨"DELETE", by decide, by decide⟩

/-! ### Claim C3 -/

theorem isPrefixB_append_self : ∀ (p s : List Char), isPrefixB p (p ++ s) = true := by
  intro p
  induction p with
  | nil => intro s; rfl
  | cons a as ih => intro s; simp [isPrefixB, ih]

theorem containsSub_of_isPrefixB {p s : List Char} (h : isPrefixB p s = true) :
    containsSub p s = true := by
  cases s with
  | nil => simpa [containsSub] using h
  | cons c cs => simp [containsSub, h]

theorem containsSub_append_right (p : List Char) :
    ∀ (t s : List Char), containsSub p s = true → containsSub p (t ++ s) = true := by
  intro t
  induction t with
  | nil => intro s h; simpa using h
  | cons c cs ih =>
    intro s h
    have : containsSub p (c :: (cs ++ s))
        = (isPrefixB p (c :: (cs ++ s)) || containsSub p (cs ++ s)) := rfl
    rw [List.cons_append, this, Bool.or_eq_true]
    exact Or.inr (ih s h)

/-- C3 counterexample: `"SELECT discount(price) FROM t"` is accepted by the
validator and returned unchanged by `addSafetyLimits` (its uppercase contains
the substring `COUNT(` inside the identifier `discount(`), yet the result
contains no `LIMIT` substring at all and no whole-word `COUNT` call — it is
neither limited nor a COUNT aggregate, so its result size is unbounded. -/
theorem addSafetyLimits_count_counterexample :
    validateSql "SELECT discount(price) FROM t" = ⟨true, none⟩
    ∧ addSafetyLimits "SELECT discount(price) FROM t" (some 1000)
        = "SELECT discount(price) FROM t"
    ∧ jsIncludes (jsToUpper "SELECT discount(price) FROM t") "LIMIT" = false
    ∧ hasWholeWordCI "COUNT".data "SELECT discount(price) FROM t".data = false :=
  ⟨by decide, by decide, by decide, by decide⟩

/-- C3 (amended): every string returned by `addSafetyLimits` contains,
uppercased, the substring `" LIMIT "` or the substring `"COUNT("`; the
`COUNT(` occurrence need not be a genuine COUNT aggregate call (it may sit
inside a longer identifier), so the result is not always bounded. -/
theorem addSafetyLimits_bound_marker (sql : String) (maxRows? : Option Nat) :
    (jsIncludes (jsToUpper (addSafetyLimits sql maxRows?)) " LIMIT "
     || jsIncludes (jsToUpper (addSafetyLimits sql maxRows?)) "COUNT(") = true := by
  by_cases hc : (jsIncludes (jsToUpper sql) " LIMIT " || jsIncludes (jsToUpper sql) "COUNT(") = true
  · simp [addSafetyLimits, hc]
  · have hc' : (jsIncludes (jsToUpper sql) " LIMIT " || jsIncludes (jsToUpper sql) "COUNT(") = false :=
      Bool.not_eq_true _ ▸ eq_false_of_ne_true hc
    simp only [addSafetyLimits, hc', Bool.false_eq_true, if_false]
    rw [Bool.or_eq_true]
    left
    show containsSub " LIMIT ".data (jsToUpperList _) = true
    rw [String.data_append, String.data_append]
    unfold jsToUpperList
    rw [List.map_append, List.map_append, List.append_assoc]
    apply containsSub_append_right
    have hup : (" LIMIT ".data.map Char.toUpper) = " LIMIT ".data := by decide
    rw [hup]
    exact containsSub_of_isPrefixB (isPrefixB_append_self _ _)

/-! ### Claim C4 -/

/-- The SafetyLimiter rule exactly as the specification words it: if the
uppercased SQL already contains ` LIMIT ` or a `COUNT(` call, return it
unchanged; otherwise strip a single trailing semicolon (if present) from the
trimmed query and append ` LIMIT <maxRows>`, `maxRows` defaulting to 1000
when unspecified. -/
def addLimitSpec (sql : String) (maxRows? : Option Nat) : String :=
  if jsIncludes (jsToUpper sql) " LIMIT " || jsIncludes (jsToUpper sql) "COUNT(" then sql
  else
    let trimmed := jsTrim sql
    let stripped :=
      if jsEndsWith trimmed ";" then (⟨trimmed.data.dropLast⟩ : String) else trimmed
    stripped ++ " LIMIT " ++ toString (maxRows?.getD 1000)

/-- C4: `addSafetyLimits` implements the specification's rule — unchanged
when the uppercased input contains `" LIMIT "` or `"COUNT("`, otherwise the
trimmed input with one trailing semicolon removed and `" LIMIT <maxRows>"`
appended; an unspecified `maxRows` behaves as 1000; and the four concrete
examples of the specification hold. -/
theorem addSafetyLimits_spec_correct :
    (∀ (sql : String) (maxRows? : Option Nat),
      addSafetyLimits sql maxRows? = addLimitSpec sql maxRows?)
    ∧ (∀ sql : String, addSafetyLimits sql none = addSafetyLimits sql (some 1000))
    ∧ addSafetyLimits "SELECT * FROM t" (some 500) = "SELECT * FROM t LIMIT 500"
    ∧ addSafetyLimits "SELECT * FROM t LIMIT 10" (some 500) = "SELECT * FROM t LIMIT 10"
    ∧ addSafetyLimits "SELECT COUNT(*) FROM t" (some 500) = "SELECT COUNT(*) FROM t"
    ∧ addSafetyLimits "SELECT * FROM t;" (some 500) = "SELECT * FROM t LIMIT 500" :=
  ⟨fun _ _ => rfl, fun _ => rfl, by decide, by decide, by decide, by decide⟩

/-! ### Claim C6 -/

/-- C6: keyword rejection is whole-word: `SELECT "inserted_at" FROM t` is
fully valid although it contains `INSERT` as a substring (there is no
whole-word occurrence); and the blocked-keyword scan finds nothing whenever
no blocked keyword occurs as a whole word. -/
theorem validateSql_whole_word_only :
    validateSql "SELECT \"inserted_at\" FROM t" = ⟨true, none⟩
    ∧ regexTestCI "INSERT" "SELECT \"inserted_at\" FROM t" = true
    ∧ hasWholeWordCI "INSERT".data "SELECT \"inserted_at\" FROM t".data = false
    ∧ (∀ (sql : String),
        (∀ kw ∈ BLOCKED_KEYWORDS, hasWholeWordCI kw.data sql.data = false) →
        BLOCKED_KEYWORDS.find? (fun kw => hasWholeWordCI kw.data sql.data) = none) := by
  refine ⟨by decide, by decide, by decide, ?_⟩
  intro sql h
  rw [List.find?_eq_none]
  intro kw hmem
  simp [h kw hmem]

/-- C6 witness: the general part applied at `"SELECT inserted_at FROM t"`. -/
theorem validateSql_whole_word_only_witness :
    BLOCKED_KEYWORDS.find?
      (fun kw => hasWholeWordCI kw.data "SELECT inserted_at FROM t".data) = none :=
  validateSql_whole_word_only.2.2.2 "SELECT inserted_at FROM t" (by decide)

/-! ### Claim C10 -/

/-- C10: the statement-type check is character-prefix matching on the
trimmed, uppercased input; any string passing it that triggers no blocked
keyword, sensitive pattern, multi-statement or comment rule is fully valid
(`"SELECTED_COLS FROM t"` and `"WITHDRAWALS"` among them), and a
whitespace-only input is rejected with the statement-type error, not the
empty-input one. -/
theorem validateSql_prefix_statement_check :
    (∀ (sql : String), sql ≠ "" →
      (jsStartsWith (jsToUpper (jsTrim sql)) "SELECT"
        || jsStartsWith (jsToUpper (jsTrim sql)) "WITH") = true →
      BLOCKED_KEYWORDS.find? (fun kw => hasWholeWordCI kw.data sql.data) = none →
      SENSITIVE_PATTERNS.any (fun pat => regexTestCI pat sql) = false →
      multiStatementViolation sql = false →
      (jsIncludes sql "--" || jsIncludes sql "/*") = false →
      validateSql sql = ⟨true, none⟩)
    ∧ validateSql "SELECTED_COLS FROM t" = ⟨true, none⟩
    ∧ validateSql "WITHDRAWALS" = ⟨true, none⟩
    ∧ validateSql "   " = ⟨false, some "Query must be a SELECT statement"⟩ := by
  refine ⟨?_, by decide, by decide, by decide⟩
  intro sql hne hsel hkw hsens hmv hcom
  rw [validateSql_passes_front sql hne hsel hkw hsens, hmv]
  simp [hcom]

/-- C10 witness: the general part applied at `"SELECTED_COLS FROM x"`. -/
theorem validateSql_prefix_statement_check_witness :
    validateSql "SELECTED_COLS FROM x" = ⟨true, none⟩ :=
  validateSql_prefix_statement_check.1 "SELECTED_COLS FROM x" (by decide) (by decide)
    (by decide) (by decide) (by decide) (by decide)

/-! ### Orchestrator helper lemmas -/

theorem askDatabase_run (timeout? : Option Nat) (g : GenerateSqlResult)
    (eq : String → Except String (List Row)) (fmtFn : List Row → FormatQueryResult)
    (maxRows? : Option Nat) (fr? : Option Bool) :
    askDatabase false timeout? (.ok g) eq fmtFn maxRows? fr?
      = executeAskDatabase g eq fmtFn (maxRows?.getD 1000) (fr?.getD true) := rfl

theorem executeAskDatabase_ok (g : GenerateSqlResult)
    (eq : String → Except String (List Row)) (fmtFn : List Row → FormatQueryResult)
    (maxRows : Nat) (shouldFormat : Bool) (rows : List Row)
    (hv : (validateSql g.sql).valid = true)
    (hex : eq (addSafetyLimits g.sql (some maxRows)) = .ok rows) :
    executeAskDatabase g eq fmtFn maxRows shouldFormat =
      .ok { sql := addSafetyLimits g.sql (some maxRows)
            explanation := g.explanation
            answer := (if shouldFormat then (fmtFn rows).answer else defaultAnswer rows)
            rawData := rows
            usage := some {
              sqlGeneration := g.usage.getD ⟨0, 0⟩
              formatting :=
                (if shouldFormat then some ((fmtFn rows).usage.getD ⟨0, 0⟩) else none)
              total :=
                ⟨(g.usage.getD ⟨0, 0⟩).inputTokens
                   + (if shouldFormat then (fmtFn rows).usage.getD ⟨0, 0⟩
                      else ⟨0, 0⟩).inputTokens,
                 (g.usage.getD ⟨0, 0⟩).outputTokens
                   + (if shouldFormat then (fmtFn rows).usage.getD ⟨0, 0⟩
                      else ⟨0, 0⟩).outputTokens⟩ } } := by
  cases shouldFormat <;> simp [executeAskDatabase, hv, hex]

theorem executeAskDatabase_execError (g : GenerateSqlResult)
    (eq : String → Except String (List Row)) (fmtFn : List Row → FormatQueryResult)
    (maxRows : Nat) (shouldFormat : Bool) (msg : String)
    (hv : (validateSql g.sql).valid = true)
    (hex : eq (addSafetyLimits g.sql (some maxRows)) = .error msg) :
    executeAskDatabase g eq fmtFn maxRows shouldFormat
      = .error ("SQL execution failed: " ++ msg) := by
  simp [executeAskDatabase, hv, hex]

/-! ### Claim C5 -/

/-- C5: when the generated candidate SQL fails validation, `askDatabase`
rejects with `"Generated SQL is invalid: <reason>"` carrying the validator's
reason; the result does not depend on the `executeQuery` callback (it is
never invoked) and no alternative or repaired outcome exists — the equation
pins the unique result. -/
theorem askDatabase_invalid_sql_rejects (g : GenerateSqlResult) (err : String)
    (hv : validateSql g.sql = ⟨false, some err⟩) :
    (∀ (timeout? : Option Nat) (eq : String → Except String (List Row))
        (fmtFn : List Row → FormatQueryResult) (maxRows? : Option Nat) (fr? : Option Bool),
      askDatabase false timeout? (.ok g) eq fmtFn maxRows? fr?
        = .error ("Generated SQL is invalid: " ++ err))
    ∧ (∀ (timeout? : Option Nat) (eq₁ eq₂ : String → Except String (List Row))
        (fmtFn : List Row → FormatQueryResult) (maxRows? : Option Nat) (fr? : Option Bool),
      askDatabase false timeout? (.ok g) eq₁ fmtFn maxRows? fr?
        = askDatabase false timeout? (.ok g) eq₂ fmtFn maxRows? fr?) := by
  have key : ∀ (timeout? : Option Nat) (eq : String → Except String (List Row))
      (fmtFn : List Row → FormatQueryResult) (maxRows? : Option Nat) (fr? : Option Bool),
      askDatabase false timeout? (.ok g) eq fmtFn maxRows? fr?
        = .error ("Generated SQL is invalid: " ++ err) := by
    intro timeout? eq fmtFn maxRows? fr?
    rw [askDatabase_run]
    simp [executeAskDatabase, hv]
  exact ⟨key, fun timeout? eq₁ eq₂ fmtFn maxRows? fr? => by rw [key, key]⟩

/-- C5 witness: the theorem applied to a generator that produced
`"DROP TABLE t"`. -/
theorem askDatabase_invalid_sql_rejects_witness :
    askDatabase false (some 30000) (.ok ⟨"DROP TABLE t", "drops", none⟩)
      (fun _ => .ok []) (fun _ => ⟨"", none⟩) none none
    = .error ("Generated SQL is invalid: " ++ "Query must be a SELECT statement") :=
  (askDatabase_invalid_sql_rejects ⟨"DROP TABLE t", "drops", none⟩
      "Query must be a SELECT statement" (by decide)).1 (some 30000)
    (fun _ => .ok []) (fun _ => ⟨"", none⟩) none none

/-! ### Claim C9 -/

/-- C9: when the timer settles the race first, `askDatabase` rejects with
exactly `"Query timed out after <ms>ms"` for the configured timeout
(default 30000 when unspecified), and nothing but that error is returned;
in particular with `timeout: 50` the message is
`"Query timed out after 50ms"`. -/
theorem askDatabase_timeout_message :
    (∀ (timeout? : Option Nat) (gen : Except String GenerateSqlResult)
        (eq : String → Except String (List Row)) (fmtFn : List Row → FormatQueryResult)
        (maxRows? : Option Nat) (fr? : Option Bool),
      askDatabase true timeout? gen eq fmtFn maxRows? fr?
        = .error ("Query timed out after " ++ toString (timeout?.getD 30000) ++ "ms"))
    ∧ askDatabase true (some 50) (.error "pending") (fun _ => .ok [])
        (fun _ => ⟨"", none⟩) none none = .error "Query timed out after 50ms"
    ∧ askDatabase true none (.error "pending") (fun _ => .ok [])
        (fun _ => ⟨"", none⟩) none none = .error "Query timed out after 30000ms" :=
  ⟨fun _ _ _ _ _ _ => rfl, rfl, rfl⟩

/-! ### Claim C7 -/

/-- C7: with `formatResults: false`, the answer is computed by the
deterministic fallback formatter with no model call: zero rows give
`"No results found."`; one row with one column gives `"Result: <value>"`;
any other shape gives `"Found <N> result(s)."`; and the end-to-end
`[{count: 1247}]` example yields `"Result: 1247"`. -/
theorem askDatabase_fallback_formatting :
    (∀ (g : GenerateSqlResult) (eq : String → Except String (List Row))
        (fmtFn : List Row → FormatQueryResult) (timeout? maxRows? : Option Nat)
        (rows : List Row),
      (validateSql g.sql).valid = true →
      eq (addSafetyLimits g.sql (some (maxRows?.getD 1000))) = .ok rows →
      ∃ res, askDatabase false timeout? (.ok g) eq fmtFn maxRows? (some false) = .ok res
        ∧ res.answer = defaultAnswer rows)
    ∧ defaultAnswer [] = "No results found."
    ∧ (∀ (k : String) (v : JsValue), defaultAnswer [[(k, v)]] = "Result: " ++ jsDisplay v)
    ∧ (∀ rows : List Row, rows ≠ [] → (¬ ∃ k v, rows = [[(k, v)]]) →
        defaultAnswer rows = "Found " ++ toString rows.length ++ " result(s).")
    ∧ askDatabase false none (.ok ⟨"SELECT COUNT(*) FROM orders", "counts", none⟩)
        (fun _ => .ok [[("count", .num 1247)]]) (fun _ => ⟨"", none⟩) none (some false)
        = .ok ⟨"SELECT COUNT(*) FROM orders", "counts", "Result: 1247",
               [[("count", .num 1247)]], some ⟨⟨0, 0⟩, none, ⟨0, 0⟩⟩⟩ := by
  refine ⟨?_, rfl, fun k v => rfl, ?_, rfl⟩
  · intro g eq fmtFn timeout? maxRows? rows hv hex
    rw [askDatabase_run, executeAskDatabase_ok g eq fmtFn _ _ rows hv hex]
    exact ⟨_, rfl, by simp⟩
  · intro rows hne hnot
    cases rows with
    | nil => exact absurd rfl hne
    | cons r rest =>
      cases rest with
      | cons r2 rest2 =>
        cases r with
        | nil => rfl
        | cons p ps =>
          cases p
          cases ps with
          | nil => rfl
          | cons q qs => rfl
      | nil =>
        cases r with
        | nil => rfl
        | cons p ps =>
          cases ps with
          | nil => exact absurd ⟨p.1, p.2, by simp⟩ hnot
          | cons q qs => rfl

/-- C7 witness: the pipeline part applied at a concrete generator and an
executor returning no rows. -/
theorem askDatabase_fallback_formatting_witness :
    ∃ res, askDatabase false (some 30000) (.ok ⟨"SELECT name FROM t", "names", none⟩)
        (fun _ => .ok []) (fun _ => ⟨"", none⟩) (some 50) (some false) = .ok res
      ∧ res.answer = defaultAnswer ([] : List Row) :=
  askDatabase_fallback_formatting.1 ⟨"SELECT name FROM t", "names", none⟩
    (fun _ => .ok []) (fun _ => ⟨"", none⟩) (some 30000) (some 50) [] (by decide) rfl

/-! ### Claim C8 -/

/-- C8: every successful `askDatabase` outcome carries a `usage` record in
which `sqlGeneration` is the generator's usage (zero-filled when absent),
`formatting` is present exactly when result formatting ran, `total` is the
elementwise sum of the two (an absent call counting as zero), and the `sql`
field is the limited SQL that was passed to the executor. -/
theorem askDatabase_usage_accounting
    (g : GenerateSqlResult) (eq : String → Except String (List Row))
    (fmtFn : List Row → FormatQueryResult) (timeout? maxRows? : Option Nat)
    (formatResults? : Option Bool) (res : AskDatabaseResult)
    (h : askDatabase false timeout? (.ok g) eq fmtFn maxRows? formatResults? = .ok res) :
    ∃ u, res.usage = some u
      ∧ u.sqlGeneration = g.usage.getD ⟨0, 0⟩
      ∧ u.formatting = (if formatResults?.getD true
                        then some ((fmtFn res.rawData).usage.getD ⟨0, 0⟩) else none)
      ∧ u.formatting.isSome = formatResults?.getD true
      ∧ u.total.inputTokens
          = u.sqlGeneration.inputTokens + (u.formatting.getD ⟨0, 0⟩).inputTokens
      ∧ u.total.outputTokens
          = u.sqlGeneration.outputTokens + (u.formatting.getD ⟨0, 0⟩).outputTokens
      ∧ res.sql = addSafetyLimits g.sql (some (maxRows?.getD 1000))
      ∧ eq res.sql = .ok res.rawData := by
  rw [askDatabase_run] at h
  by_cases hv : (validateSql g.sql).valid = true
  · cases hq : eq (addSafetyLimits g.sql (some (maxRows?.getD 1000))) with
    | error msg =>
      rw [executeAskDatabase_execError g eq fmtFn _ _ msg hv hq] at h
      exact absurd h (by simp)
    | ok rows =>
      rw [executeAskDatabase_ok g eq fmtFn _ _ rows hv hq] at h
      have hres := (Except.ok.inj h).symm
      subst hres
      cases hf : (formatResults?.getD true) <;>
        exact ⟨_, rfl, rfl, by simp [hf], by simp [hf], by simp [hf], by simp [hf], rfl, hq⟩
  · have hvf : (validateSql g.sql).valid = false := by
      simpa using hv
    simp [executeAskDatabase, hvf] at h

/-- C8 witness: the theorem applied to a concrete successful run with
generation usage `(10, 5)` and formatting usage `(7, 3)`. -/
theorem askDatabase_usage_accounting_witness :
    ∃ u : UsageInfo, u.sqlGeneration = ⟨10, 5⟩ ∧ u.formatting = some ⟨7, 3⟩
      ∧ u.total = ⟨17, 8⟩ := by
  obtain ⟨u, hu, -⟩ :=
    askDatabase_usage_accounting ⟨"SELECT name FROM t", "names", some ⟨10, 5⟩⟩
      (fun _ => .ok [[("name", .str "a")], [("name", .str "b")]])
      (fun _ => ⟨"two rows", some ⟨7, 3⟩⟩) none none none
      ⟨"SELECT name FROM t LIMIT 1000", "names", "two rows",
       [[("name", .str "a")], [("name", .str "b")]],
       some ⟨⟨10, 5⟩, some ⟨7, 3⟩, ⟨17, 8⟩⟩⟩ rfl
  have hu' : (⟨⟨10, 5⟩, some ⟨7, 3⟩, ⟨17, 8⟩⟩ : UsageInfo) = u := Option.some.inj hu
  exact ⟨u, hu' ▸ rfl, hu' ▸ rfl, hu' ▸ rfl⟩
